import Mathlib

/-!
# cryptopotterheads: the `App` component of `src/App.js`

A shallow embedding of the React component `App`: its three state cells
(`walletAddress`, `inputValue`, `gifList`), its handlers
(`checkIfWalletIsConnected`, `connectWallet`, `sendGif`, `onInputChange`,
`createGifAccount`, `getGifList`) and its render function.

The wallet extension, the Anchor client and the on-chain program are external
to `App.js`.  They are an explicit environment `Ext W`: every external call is
a function of a world state `W` that returns the outcome of the call and the
next world.  A handler is a computation in the monad `M W`, which threads the
pending React state and the world, records every observable effect in a trace
and carries JavaScript exceptions (`throw` / `try ... catch`).  An `await` is
sequential composition: interleaving with other handlers is not modelled.
-/

namespace App

/-! ## Data model -/

/-- A JavaScript exception value (only its message is kept). -/
abbrev Err := String

/-- A Solana `PublicKey`; `toString` is its base58 text. -/
structure PublicKey where
  base58 : String
  deriving DecidableEq, Repr

/-- The method `publicKey.toString()`. -/
def PublicKey.toString (k : PublicKey) : String := k.base58

/-- One element of `account.gifList`: the fields the component reads. -/
structure GifItem where
  gifLink : String
  userAddress : PublicKey
  deriving DecidableEq, Repr

/-- The decoded `baseAccount`, as returned by `program.account.baseAccount.fetch`. -/
structure Account where
  gifList : List GifItem
  deriving DecidableEq, Repr

/-- The browser-injected object `window.solana`. -/
structure Wallet where
  isPhantom : Bool
  publicKey : Option PublicKey
  deriving DecidableEq, Repr

/-- The three `useState` cells.  `none` is JavaScript `null`. -/
structure State where
  walletAddress : Option String
  inputValue : String
  gifList : Option (List GifItem)
  deriving DecidableEq, Repr

/-- The initial values: `useState(null)`, `useState('')`, `useState([])`. -/
def State.initial : State :=
  { walletAddress := none, inputValue := "", gifList := some [] }

/-- The object built by `getProvider`: it keeps `window.solana` as `wallet`. -/
structure Provider where
  wallet : Option Wallet
  deriving DecidableEq, Repr

/-- Observable effects of a handler, in program order.  A remote call is
recorded together with its outcome (`none` / `false` is a rejection). -/
inductive Event where
  | log (label : String)
  | consoleError
  | alert (msg : String)
  | connect (onlyIfTrusted : Bool) (res : Option PublicKey)
  | addGif (link : String) (baseAccount : PublicKey) (user : Option PublicKey) (ok : Bool)
  | startStuffOff (baseAccount : PublicKey) (user : Option PublicKey)
      (systemProgram : PublicKey) (signer : PublicKey) (ok : Bool)
  | fetch (address : PublicKey) (res : Option Account)
  | setWalletAddress (v : String)
  | setInputValue (v : String)
  | setGifList (v : Option (List GifItem))
  deriving DecidableEq, Repr

/-- The environment of the component: module-level constants and the external
calls, each a function of the world `W`. -/
structure Ext (W : Type) where
  /-- The constant `baseAccount.publicKey` (from `keypair.json`). -/
  baseAccount : PublicKey
  /-- The constant `SystemProgram.programId`. -/
  systemProgramId : PublicKey
  /-- The global `window.solana` (`none` when the extension is absent). -/
  solana : W → Option Wallet
  /-- The call `solana.connect(...)`; the flag is `onlyIfTrusted`.  The result is
  `response.publicKey` (a rejection, or a response without a key, is an error). -/
  connect : Bool → W → Except Err PublicKey × W
  /-- The constructors `new Connection(...)` and `new Provider(...)`. -/
  newProvider : W → Except Err Unit
  /-- The constructor `new Program(idl, programID, provider)`. -/
  newProgram : W → Except Err Unit
  /-- The call `program.rpc.addGif(link, { accounts: { baseAccount, user } })`. -/
  addGif : String → PublicKey → Option PublicKey → W → Except Err Unit × W
  /-- The call `program.rpc.startStuffOff({ accounts, signers })`. -/
  startStuffOff : PublicKey → Option PublicKey → PublicKey → PublicKey → W → Except Err Unit × W
  /-- The call `program.account.baseAccount.fetch(address)`. -/
  fetch : PublicKey → W → Except Err Account × W

/-! ## The handler monad -/

/-- The result of running a handler: how it completed (`ok` is normal
completion, `error` a rejected promise), the pending React state, the world
and the trace of effects. -/
structure Res (W α : Type) where
  out : Except Err α
  st : State
  world : W
  trace : List Event

/-- A handler body: a function of the pending state and the world. -/
def M (W α : Type) : Type := State → W → Res W α

/-- Normal completion with a value. -/
def M.pure {W α : Type} (a : α) : M W α :=
  fun s w => { out := .ok a, st := s, world := w, trace := [] }

/-- Sequencing: an exception in the first part skips the second. -/
def M.bind {W α β : Type} (m : M W α) (f : α → M W β) : M W β :=
  fun s w =>
    let r := m s w
    match r.out with
    | .ok a =>
      let r2 := f a r.st r.world
      { r2 with trace := r.trace ++ r2.trace }
    | .error e => { out := .error e, st := r.st, world := r.world, trace := r.trace }

instance {W : Type} : Monad (M W) where
  pure := M.pure
  bind := M.bind

/-- The statement `throw e`. -/
def throwErr {W α : Type} (e : Err) : M W α :=
  fun s w => { out := .error e, st := s, world := w, trace := [] }

/-- The statement `try { body } catch (error) { handler }`. -/
def tryCatch {W α : Type} (body : M W α) (handler : Err → M W α) : M W α :=
  fun s w =>
    let r := body s w
    match r.out with
    | .ok a => { out := .ok a, st := r.st, world := r.world, trace := r.trace }
    | .error e =>
      let r2 := handler e r.st r.world
      { r2 with trace := r.trace ++ r2.trace }

/-- Record one effect. -/
def emit {W : Type} (ev : Event) : M W Unit :=
  fun s w => { out := .ok (), st := s, world := w, trace := [ev] }

/-- The call `console.log(label, ...)`. -/
def log {W : Type} (label : String) : M W Unit := emit (.log label)

/-- The setter `setWalletAddress(v)`. -/
def setWalletAddress {W : Type} (v : String) : M W Unit :=
  fun s w => { out := .ok (), st := { s with walletAddress := some v }, world := w,
               trace := [.setWalletAddress v] }

/-- The setter `setInputValue(v)`. -/
def setInputValue {W : Type} (v : String) : M W Unit :=
  fun s w => { out := .ok (), st := { s with inputValue := v }, world := w,
               trace := [.setInputValue v] }

/-- The setter `setGifList(v)`. -/
def setGifList {W : Type} (v : Option (List GifItem)) : M W Unit :=
  fun s w => { out := .ok (), st := { s with gifList := v }, world := w,
               trace := [.setGifList v] }

/-- Read `window.solana`. -/
def readSolana {W : Type} (E : Ext W) : M W (Option Wallet) :=
  fun s w => { out := .ok (E.solana w), st := s, world := w, trace := [] }

/-- The awaited call `solana.connect(...)` followed by reading `response.publicKey`. -/
def connect {W : Type} (E : Ext W) (onlyIfTrusted : Bool) : M W PublicKey :=
  fun s w =>
    match E.connect onlyIfTrusted w with
    | (.ok k, w2) => { out := .ok k, st := s, world := w2, trace := [.connect onlyIfTrusted (some k)] }
    | (.error e, w2) => { out := .error e, st := s, world := w2, trace := [.connect onlyIfTrusted none] }

/-- The function `getProvider`. -/
def getProvider {W : Type} (E : Ext W) : M W Provider :=
  fun s w =>
    match E.newProvider w with
    | .ok _ => { out := .ok { wallet := E.solana w }, st := s, world := w, trace := [] }
    | .error e => { out := .error e, st := s, world := w, trace := [] }

/-- The expression `new Program(idl, programID, provider)`. -/
def newProgram {W : Type} (E : Ext W) (_provider : Provider) : M W Unit :=
  fun s w =>
    match E.newProgram w with
    | .ok _ => { out := .ok (), st := s, world := w, trace := [] }
    | .error e => { out := .error e, st := s, world := w, trace := [] }

/-- The expression `provider.wallet.publicKey`: a `TypeError` when
`provider.wallet` is `undefined`. -/
def walletPublicKey {W : Type} (provider : Provider) : M W (Option PublicKey) :=
  match provider.wallet with
  | some wallet => pure wallet.publicKey
  | none => throwErr "TypeError: Cannot read properties of undefined (reading publicKey)"

/-- The awaited call `program.rpc.addGif(link, { accounts })`. -/
def addGif {W : Type} (E : Ext W) (link : String) (base : PublicKey) (user : Option PublicKey) :
    M W Unit :=
  fun s w =>
    match E.addGif link base user w with
    | (.ok _, w2) => { out := .ok (), st := s, world := w2, trace := [.addGif link base user true] }
    | (.error e, w2) => { out := .error e, st := s, world := w2, trace := [.addGif link base user false] }

/-- The awaited call `program.rpc.startStuffOff({ accounts, signers })`. -/
def startStuffOff {W : Type} (E : Ext W) (base : PublicKey) (user : Option PublicKey)
    (sys signer : PublicKey) : M W Unit :=
  fun s w =>
    match E.startStuffOff base user sys signer w with
    | (.ok _, w2) =>
      { out := .ok (), st := s, world := w2, trace := [.startStuffOff base user sys signer true] }
    | (.error e, w2) =>
      { out := .error e, st := s, world := w2, trace := [.startStuffOff base user sys signer false] }

/-- The awaited call `program.account.baseAccount.fetch(address)`. -/
def fetch {W : Type} (E : Ext W) (address : PublicKey) : M W Account :=
  fun s w =>
    match E.fetch address w with
    | (.ok a, w2) => { out := .ok a, st := s, world := w2, trace := [.fetch address (some a)] }
    | (.error e, w2) => { out := .error e, st := s, world := w2, trace := [.fetch address none] }

/-! ## The handlers of `App` -/

/-- The handler `getGifList` (lines 212-224). -/
def getGifList {W : Type} (E : Ext W) : M W Unit :=
  tryCatch
    (do
      let provider ← getProvider E
      newProgram E provider
      let account ← fetch E E.baseAccount
      log "Got the account"
      setGifList (some account.gifList))
    (fun _ => do
      log "Error in getGifList"
      setGifList none)

/-- The handler `checkIfWalletIsConnected` (lines 44-66). -/
def checkIfWalletIsConnected {W : Type} (E : Ext W) : M W Unit :=
  tryCatch
    (do
      let solana ← readSolana E
      match solana with
      | some wallet =>
        if wallet.isPhantom then do
          log "Phantom Wallet found!"
          let publicKey ← connect E true
          log "Connected with the Public Key:"
          setWalletAddress publicKey.toString
        else
          pure ()
      | none => emit (.alert "Solana object not found! Get a Phantom Wallet!"))
    (fun _ => emit .consoleError)

/-- The handler `connectWallet` (lines 69-77): no `try` around the request. -/
def connectWallet {W : Type} (E : Ext W) : M W Unit := do
  let solana ← readSolana E
  match solana with
  | some _ =>
    let publicKey ← connect E false
    log "Connected with Public Key:"
    setWalletAddress publicKey.toString
  | none => pure ()

/-- The handler `sendGif` (lines 89-112).  `inputValue` is the value captured
by the render that created the handler. -/
def sendGif {W : Type} (E : Ext W) (inputValue : String) : M W Unit :=
  if inputValue.length = 0 then
    log "No gif link given!"
  else do
    setInputValue ""
    log "Gif link:"
    tryCatch
      (do
        let provider ← getProvider E
        newProgram E provider
        let user ← walletPublicKey provider
        addGif E inputValue E.baseAccount user
        log "GIF successfully sent to program"
        getGifList E)
      (fun _ => log "Error sending GIF:")

/-- The handler `onInputChange` (lines 114-117); `value` is `event.target.value`. -/
def onInputChange {W : Type} (value : String) : M W Unit :=
  setInputValue value

/-- The handler `createGifAccount` (lines 127-145). -/
def createGifAccount {W : Type} (E : Ext W) : M W Unit :=
  tryCatch
    (do
      let provider ← getProvider E
      newProgram E provider
      log "ping"
      let user ← walletPublicKey provider
      startStuffOff E E.baseAccount user E.systemProgramId E.baseAccount
      log "Created a new BaseAccount w/address:"
      getGifList E)
    (fun _ => log "Error creating BaseAccount account")

/-- The effect of lines 226-232, run when `walletAddress` changes: a truthy
address (neither `null` nor the empty string) starts `getGifList`. -/
def walletEffect {W : Type} (E : Ext W) (walletAddress : Option String) : M W Unit :=
  match walletAddress with
  | some a => if a.length = 0 then pure () else do
      log "Fetching GIF list..."
      getGifList E
  | none => pure ()

/-- The operations a user or the page can start. -/
inductive Op where
  | checkIfWalletIsConnected
  | connectWallet
  | onInputChange (value : String)
  | sendGif
  | createGifAccount
  | getGifList
  deriving DecidableEq, Repr

/-- Run one operation from the rendered state `st` in world `w`. -/
def run {W : Type} (E : Ext W) (op : Op) (st : State) (w : W) : Res W Unit :=
  match op with
  | .checkIfWalletIsConnected => checkIfWalletIsConnected E st w
  | .connectWallet => connectWallet E st w
  | .onInputChange value => onInputChange value st w
  | .sendGif => sendGif E st.inputValue st w
  | .createGifAccount => createGifAccount E st w
  | .getGifList => getGifList E st w

/-- An event that is a request to the wallet or to the remote program. -/
def Event.isRemoteCall : Event → Bool
  | .connect _ _ => true
  | .addGif _ _ _ _ => true
  | .startStuffOff _ _ _ _ _ => true
  | .fetch _ _ => true
  | _ => false

/-- An event that is a remote request that was rejected. -/
def Event.isFailedCall : Event → Bool
  | .connect _ none => true
  | .addGif _ _ _ false => true
  | .startStuffOff _ _ _ _ false => true
  | .fetch _ none => true
  | _ => false

/-- An event that is a wallet connect request. -/
def Event.isConnect : Event → Bool
  | .connect _ _ => true
  | _ => false

/-- An event that is an `addGif` request. -/
def Event.isAddGif : Event → Bool
  | .addGif _ _ _ _ => true
  | _ => false

/-- An event that is an account read. -/
def Event.isFetch : Event → Bool
  | .fetch _ _ => true
  | _ => false

/-- Whether the promise of a handler was fulfilled (not rejected). -/
def Res.completes {W α : Type} (r : Res W α) : Bool :=
  match r.out with
  | .ok _ => true
  | .error _ => false

/-! ## The view -/

/-- The handlers that the markup attaches to elements. -/
inductive Handler where
  | connectWallet
  | createGifAccount
  | submitSendGif
  | onInputChange
  deriving DecidableEq, Repr

/-- The value of a JSX attribute. -/
inductive PropVal where
  | str (s : String)
  | num (n : Nat)
  | handler (h : Handler)
  deriving DecidableEq, Repr

/-- A rendered React element tree. -/
inductive Node where
  | elem (tag : String) (props : List (String × PropVal)) (children : List Node)
  | text (s : String)
  deriving Repr

/-- The `className` (or `class`) attribute of an element, if any. -/
def Node.className : Node → Option String
  | .elem _ props _ =>
    match props.lookup "className" with
    | some (.str c) => some c
    | _ =>
      match props.lookup "class" with
      | some (.str c) => some c
      | _ => none
  | .text _ => none

mutual
/-- All elements of the tree whose class attribute is `cls`, in document order. -/
def Node.select (cls : String) : Node → List Node
  | .elem tag props children =>
    (if (Node.elem tag props children).className = some cls
      then [Node.elem tag props children] else []) ++ Node.selectList cls children
  | .text _ => []
/-- The elements of class `cls` in a list of sibling trees. -/
def Node.selectList (cls : String) : List Node → List Node
  | [] => []
  | c :: cs => Node.select cls c ++ Node.selectList cls cs
end

/-- JavaScript truthiness of `walletAddress`: neither `null` nor `''`. -/
def truthy (walletAddress : Option String) : Bool :=
  match walletAddress with
  | some a => !(a.length = 0)
  | none => false

/-- The constant `TWITTER_HANDLE`. -/
def TWITTER_HANDLE : String := "dxlantxch"

/-- The constant `TWITTER_LINK`. -/
def TWITTER_LINK : String := "https://twitter.com/" ++ TWITTER_HANDLE

/-- The function `renderNotConnectedContainer` (lines 148-157). -/
def renderNotConnectedContainer : Node :=
  .elem "button"
    [("className", .str "cta-button connect-wallet-button"), ("onClick", .handler .connectWallet)]
    [.text "Connect to Wallet"]

/-- One element of the `gifList.map` of lines 183-188. -/
def renderGifItem (index : Nat) (item : GifItem) : Node :=
  .elem "div" [("className", .str "gif-item"), ("key", .num index)]
    [.elem "img" [("src", .str item.gifLink)] [],
     .elem "p" [("className", .str "posted-by-text")]
       [.text "Posted by: ", .text item.userAddress.toString]]

/-- The expression `gifList.map((item, index) => ...)`, counting from `index`. -/
def renderGifItems (index : Nat) : List GifItem → List Node
  | [] => []
  | item :: rest => renderGifItem index item :: renderGifItems (index + 1) rest

/-- The function `renderConnectedContainer` (lines 159-193). -/
def renderConnectedContainer (st : State) : Node :=
  match st.gifList with
  | none =>
    .elem "div" [("className", .str "connected-container")]
      [.elem "button"
        [("className", .str "cta-button submit-gif-button"),
         ("onClick", .handler .createGifAccount)]
        [.text "Do a One-Time Initialization For GIF Program Account"]]
  | some gifList =>
    .elem "div" [("className", .str "connected-container")]
      [.elem "form" [("onSubmit", .handler .submitSendGif)]
        [.elem "input"
          [("type", .str "text"),
           ("placeholder", .str "Enter the link of your favorite HP GIF!"),
           ("value", .str st.inputValue),
           ("onChange", .handler .onInputChange)] [],
         .elem "button"
          [("type", .str "submit"), ("className", .str "cta-button submit-gif-button")]
          [.text "Submit"]],
       .elem "div" [("className", .str "gif-grid")] (renderGifItems 0 gifList)]

/-- The function `renderImage` (lines 195-201). -/
def renderImage : Node :=
  .elem "div" [("class", .str "landing-image-container")]
    [.elem "img"
      [("className", .str "landing-image"),
       ("src", .str "https://media.giphy.com/media/d6Ni9aqSatPfq/giphy.gif")] []]

/-- The JSX returned by `App` (lines 234-259).  A child expression
`cond && element` contributes the element when `cond` is truthy and nothing
otherwise. -/
def render (st : State) : Node :=
  .elem "div" [("className", .str "App")]
    [.elem "div"
      [("className", .str (if truthy st.walletAddress then "authed-container" else "container"))]
      ((if !truthy st.walletAddress then [renderImage] else []) ++
       [.elem "div" [("className", .str "header-container")]
          ([.elem "p" [("className", .str "header")] [.text "ðŸª„ HP Crypto GIFS"],
            .elem "p" [("className", .str "sub-text")]
              [.text
                "Post and view GIFS of your favorite Harry Potter characters on the Solana blockchain âœ¨"]] ++
           (if !truthy st.walletAddress then [renderNotConnectedContainer] else []) ++
           (if truthy st.walletAddress then [renderConnectedContainer st] else [])),
        .elem "div" [("className", .str "footer-container")]
          [.elem "img"
            [("alt", .str "Twitter Logo"), ("className", .str "twitter-logo"),
             ("src", .str "twitter-logo.svg")] [],
           .elem "a"
            [("className", .str "footer-text"), ("href", .str TWITTER_LINK),
             ("target", .str "_blank"), ("rel", .str "noreferrer")]
            [.text ("built by @" ++ TWITTER_HANDLE)]]])]

/-- The operation a markup handler starts; `value` is the text of the input
event (used by `onInputChange` only). -/
def Handler.toOp (value : String) : Handler → Op
  | .connectWallet => .connectWallet
  | .createGifAccount => .createGifAccount
  | .submitSendGif => .sendGif
  | .onInputChange => .onInputChange value

/-! ## Concrete environments -/

/-- A world in which every external call has a fixed, scripted outcome. -/
structure Script where
  solana : Option Wallet
  connectRes : Option PublicKey
  providerOk : Bool
  programOk : Bool
  addGifOk : Bool
  startOk : Bool
  fetchRes : Option Account
  deriving DecidableEq, Repr

/-- Turn a scripted flag into the outcome of a call. -/
def Script.outcome (ok : Bool) (msg : Err) : Except Err Unit :=
  if ok then .ok () else .error msg

/-- The environment that replays a `Script`; the world never changes. -/
def scriptExt : Ext Script where
  baseAccount := { base58 := "BaseAccount" }
  systemProgramId := { base58 := "11111111111111111111111111111111" }
  solana := fun w => w.solana
  connect := fun _ w =>
    match w.connectRes with
    | some k => (.ok k, w)
    | none => (.error "User rejected the request.", w)
  newProvider := fun w => Script.outcome w.providerOk "provider construction failed"
  newProgram := fun w => Script.outcome w.programOk "program construction failed"
  addGif := fun _ _ _ w => (Script.outcome w.addGifOk "transaction failed", w)
  startStuffOff := fun _ _ _ _ w => (Script.outcome w.startOk "transaction failed", w)
  fetch := fun _ w =>
    match w.fetchRes with
    | some a => (.ok a, w)
    | none => (.error "Account does not exist", w)

/-- The world of the remote model: the wallet object of the page and the list
held by the fixed account (`none` while the account was never initialized). -/
structure RemoteWorld where
  wallet : Option Wallet
  account : Option (List GifItem)
  deriving DecidableEq, Repr

/-- Modelled from the spec: the on-chain program behind `addGif`, `startStuffOff`
and `account.baseAccount.fetch` is not part of `App.js`.  It is an append-only
list of (gifLink, userAddress) items on the fixed account `base`: `fetch`
returns the list of an initialized account and fails otherwise, `addGif`
appends one item attributed to the signing user, `startStuffOff` creates the
empty list.  A second `startStuffOff` is rejected here; the spec leaves that
case to the backend.  Client construction always succeeds and a connect
request yields the key of the wallet object. -/
def remoteExt (base sys : PublicKey) : Ext RemoteWorld where
  baseAccount := base
  systemProgramId := sys
  solana := fun w => w.wallet
  connect := fun _ w =>
    match w.wallet with
    | some wallet =>
      match wallet.publicKey with
      | some k => (.ok k, w)
      | none => (.error "User rejected the request.", w)
    | none => (.error "no wallet", w)
  newProvider := fun _ => .ok ()
  newProgram := fun _ => .ok ()
  addGif := fun link address user w =>
    match w.account, user with
    | some items, some u =>
      if address = base then
        (.ok (), { w with account := some (items ++ [{ gifLink := link, userAddress := u }]) })
      else (.error "unknown account", w)
    | _, _ => (.error "transaction failed", w)
  startStuffOff := fun address user _ _ w =>
    match w.account, user with
    | none, some _ =>
      if address = base then (.ok (), { w with account := some [] })
      else (.error "unknown account", w)
    | _, _ => (.error "transaction failed", w)
  fetch := fun address w =>
    match w.account with
    | some items =>
      if address = base then (.ok { gifList := items }, w)
      else (.error "Account does not exist", w)
    | none => (.error "Account does not exist", w)

/-- A sample wallet key. -/
def sampleKey : PublicKey := { base58 := "9xQeWvG816bUx9EPjHmaT23yvVM2ZWbrrpZb9PusVFin" }

/-- A sample connected Phantom wallet. -/
def sampleWallet : Wallet := { isPhantom := true, publicKey := some sampleKey }

/-- A sample item already stored in the account. -/
def sampleItem : GifItem :=
  { gifLink := "https://media.giphy.com/media/26BRzozg4TCBXv6QU/giphy.gif", userAddress := sampleKey }

/-- A script in which every call succeeds and the account holds `sampleItem`. -/
def okScript : Script :=
  { solana := some sampleWallet, connectRes := some sampleKey, providerOk := true,
    programOk := true, addGifOk := true, startOk := true,
    fetchRes := some { gifList := [sampleItem] } }

/-- A connected state with a link typed into the form. -/
def sampleState : State :=
  { walletAddress := some sampleKey.toString, inputValue := "https://giphy.com/hp.gif",
    gifList := some [sampleItem] }

/-- The connected state with an empty form. -/
def emptyInputState : State := { sampleState with inputValue := "" }

/-- A script in which the user declines the connect request. -/
def rejectScript : Script := { okScript with connectRes := none }

/-- A script in which `new Program(...)` throws. -/
def noProgramScript : Script := { okScript with programOk := false }

/-- A script in which the `addGif` transaction is rejected. -/
def addFailScript : Script := { okScript with addGifOk := false }

/-- A script in which transactions succeed and the account read is rejected. -/
def fetchFailScript : Script := { okScript with fetchRes := none }

/-- A script for a page without a wallet extension. -/
def noWalletScript : Script := { okScript with solana := none }

/-- A remote world with a connected wallet and an initialized account. -/
def sampleRemote : RemoteWorld := { wallet := some sampleWallet, account := some [sampleItem] }

/-! ## Evaluation lemmas -/

section Lemmas

variable {W : Type}

theorem bind_def {α β : Type} (m : M W α) (f : α → M W β) : (m >>= f) = M.bind m f := rfl

theorem pure_def {α : Type} (a : α) : (pure a : M W α) = M.pure a := rfl

/-- The outcome of `getGifList` when the account read succeeds. -/
theorem getGifList_ok (E : Ext W) (st : State) (w w2 : W) (a : Account)
    (hp : E.newProvider w = .ok ()) (hg : E.newProgram w = .ok ())
    (hf : E.fetch E.baseAccount w = (.ok a, w2)) :
    getGifList E st w =
      { out := .ok (), st := { st with gifList := some a.gifList }, world := w2,
        trace := [.fetch E.baseAccount (some a), .log "Got the account",
                  .setGifList (some a.gifList)] } := by
  simp [getGifList, tryCatch, bind_def, M.bind, getProvider, newProgram, fetch, log, emit,
    setGifList, hp, hg, hf]

/-- The outcome of `getGifList` when the account read fails at any step. -/
theorem getGifList_fail (E : Ext W) (st : State) (w : W)
    (h : (∃ e, E.newProvider w = .error e) ∨ (∃ e, E.newProgram w = .error e) ∨
      (∃ e w2, E.fetch E.baseAccount w = (.error e, w2))) :
    (getGifList E st w).completes = true ∧
    (getGifList E st w).st = { st with gifList := none } := by
  rcases hp : E.newProvider w with e | ⟨⟩ <;> rcases hg : E.newProgram w with e2 | ⟨⟩ <;>
    rcases hf : E.fetch E.baseAccount w with ⟨(e3 | a), w2⟩ <;>
    simp [getGifList, tryCatch, bind_def, M.bind, getProvider, newProgram, fetch, log, emit,
      setGifList, Res.completes, hp, hg, hf] at h ⊢

/-- A string has length zero exactly when it is the empty string. -/
theorem length_eq_zero_iff (s : String) : s.length = 0 ↔ s = "" := by
  constructor
  · intro h
    have hd : s.data = [] := List.length_eq_zero.mp h
    exact String.ext hd
  · rintro rfl
    rfl

/-- `getGifList` never throws. -/
theorem getGifList_out (E : Ext W) (st : State) (w : W) :
    (getGifList E st w).out = .ok () := by
  rcases hp : E.newProvider w with e | ⟨⟩ <;> rcases hg : E.newProgram w with e2 | ⟨⟩ <;>
    rcases hf : E.fetch E.baseAccount w with ⟨(e3 | a), w2⟩ <;>
    simp [getGifList, tryCatch, bind_def, M.bind, getProvider, newProgram, fetch, log, emit,
      setGifList, hp, hg, hf]

/-- `sendGif` on the empty input: only the log line. -/
theorem sendGif_empty (E : Ext W) (st : State) (w : W) :
    sendGif E "" st w =
      { out := .ok (), st := st, world := w, trace := [.log "No gif link given!"] } := by
  simp [sendGif, log, emit]

/-- `sendGif` when the client cannot be built: nothing is sent. -/
theorem sendGif_noClient (E : Ext W) (link : String) (st : State) (w : W) (hl : link ≠ "")
    (h : (∃ e, E.newProvider w = .error e) ∨ (∃ e, E.newProgram w = .error e) ∨
      E.solana w = none) :
    sendGif E link st w =
      { out := .ok (), st := { st with inputValue := "" }, world := w,
        trace := [.setInputValue "", .log "Gif link:", .log "Error sending GIF:"] } := by
  have hl2 : ¬ link.length = 0 := fun h0 => hl ((length_eq_zero_iff link).mp h0)
  rcases hp : E.newProvider w with e | ⟨⟩ <;> rcases hg : E.newProgram w with e2 | ⟨⟩ <;>
    rcases hs : E.solana w with _ | wallet <;>
    simp [sendGif, hl2, tryCatch, bind_def, pure_def, M.bind, M.pure, getProvider, newProgram,
      walletPublicKey, throwErr, setInputValue, log, emit, hp, hg, hs] at h ⊢

/-- `sendGif` when the `addGif` request is rejected. -/
theorem sendGif_addFail (E : Ext W) (link : String) (st : State) (w w2 : W) (wallet : Wallet)
    (e : Err) (hl : link ≠ "") (hp : E.newProvider w = .ok ()) (hg : E.newProgram w = .ok ())
    (hs : E.solana w = some wallet)
    (ha : E.addGif link E.baseAccount wallet.publicKey w = (.error e, w2)) :
    sendGif E link st w =
      { out := .ok (), st := { st with inputValue := "" }, world := w2,
        trace := [.setInputValue "", .log "Gif link:",
                  .addGif link E.baseAccount wallet.publicKey false,
                  .log "Error sending GIF:"] } := by
  have hl2 : ¬ link.length = 0 := fun h0 => hl ((length_eq_zero_iff link).mp h0)
  simp [sendGif, hl2, tryCatch, bind_def, pure_def, M.bind, M.pure, getProvider, newProgram,
    walletPublicKey, throwErr, setInputValue, addGif, log, emit, hp, hg, hs, ha]

/-- `sendGif` when the `addGif` request succeeds: `getGifList` runs once. -/
theorem sendGif_addOk (E : Ext W) (link : String) (st : State) (w w2 : W) (wallet : Wallet)
    (hl : link ≠ "") (hp : E.newProvider w = .ok ()) (hg : E.newProgram w = .ok ())
    (hs : E.solana w = some wallet)
    (ha : E.addGif link E.baseAccount wallet.publicKey w = (.ok (), w2)) :
    sendGif E link st w =
      { out := .ok (),
        st := (getGifList E { st with inputValue := "" } w2).st,
        world := (getGifList E { st with inputValue := "" } w2).world,
        trace := [.setInputValue "", .log "Gif link:",
                  .addGif link E.baseAccount wallet.publicKey true,
                  .log "GIF successfully sent to program"] ++
                 (getGifList E { st with inputValue := "" } w2).trace } := by
  have hl2 : ¬ link.length = 0 := fun h0 => hl ((length_eq_zero_iff link).mp h0)
  have ho := getGifList_out E { st with inputValue := "" } w2
  simp [sendGif, hl2, tryCatch, bind_def, pure_def, M.bind, M.pure, getProvider, newProgram,
    walletPublicKey, throwErr, setInputValue, addGif, log, emit, hp, hg, hs, ha, ho]

/-- The two shapes of a `getGifList` run: a successful read that stores the
fetched list, or a failed read (with or without a rejected fetch) that stores
`null`. -/
theorem getGifList_shape (E : Ext W) (st : State) (w : W) :
    (∃ a w2, getGifList E st w =
        { out := .ok (), st := { st with gifList := some a.gifList }, world := w2,
          trace := [.fetch E.baseAccount (some a), .log "Got the account",
                    .setGifList (some a.gifList)] }) ∨
    (∃ w2 pre, (pre = [] ∨ pre = [Event.fetch E.baseAccount none]) ∧
      getGifList E st w =
        { out := .ok (), st := { st with gifList := none }, world := w2,
          trace := pre ++ [.log "Error in getGifList", .setGifList none] }) := by
  rcases hp : E.newProvider w with e | ⟨⟩ <;> rcases hg : E.newProgram w with e2 | ⟨⟩ <;>
    rcases hf : E.fetch E.baseAccount w with ⟨(e3 | a), w2⟩ <;>
    simp [getGifList, tryCatch, bind_def, M.bind, getProvider, newProgram, fetch, log, emit,
      setGifList, hp, hg, hf]
  exact ⟨a, rfl, rfl, rfl⟩

/-- Every run of `sendGif` on a non-empty link has one of three shapes. -/
theorem sendGif_cases (E : Ext W) (link : String) (st : State) (w : W) (hl : link ≠ "") :
    sendGif E link st w =
        { out := .ok (), st := { st with inputValue := "" }, world := w,
          trace := [.setInputValue "", .log "Gif link:", .log "Error sending GIF:"] } ∨
    (∃ (wallet : Wallet) (w2 : W), sendGif E link st w =
        { out := .ok (), st := { st with inputValue := "" }, world := w2,
          trace := [.setInputValue "", .log "Gif link:",
                    .addGif link E.baseAccount wallet.publicKey false,
                    .log "Error sending GIF:"] }) ∨
    (∃ (wallet : Wallet) (w2 : W), sendGif E link st w =
        { out := .ok (),
          st := (getGifList E { st with inputValue := "" } w2).st,
          world := (getGifList E { st with inputValue := "" } w2).world,
          trace := [.setInputValue "", .log "Gif link:",
                    .addGif link E.baseAccount wallet.publicKey true,
                    .log "GIF successfully sent to program"] ++
                   (getGifList E { st with inputValue := "" } w2).trace }) := by
  rcases hp : E.newProvider w with e | ⟨⟩
  · exact Or.inl (sendGif_noClient E link st w hl (Or.inl ⟨e, hp⟩))
  rcases hg : E.newProgram w with e | ⟨⟩
  · exact Or.inl (sendGif_noClient E link st w hl (Or.inr (Or.inl ⟨e, hg⟩)))
  rcases hs : E.solana w with _ | wallet
  · exact Or.inl (sendGif_noClient E link st w hl (Or.inr (Or.inr hs)))
  rcases ha : E.addGif link E.baseAccount wallet.publicKey w with ⟨(e | ⟨⟩), w2⟩
  · exact Or.inr (Or.inl ⟨wallet, w2, sendGif_addFail E link st w w2 wallet e hl hp hg hs ha⟩)
  · exact Or.inr (Or.inr ⟨wallet, w2, sendGif_addOk E link st w w2 wallet hl hp hg hs ha⟩)

/-- `createGifAccount` when the client cannot be built: nothing is sent. -/
theorem createGifAccount_noClient (E : Ext W) (st : State) (w : W)
    (h : (∃ e, E.newProvider w = .error e) ∨ (∃ e, E.newProgram w = .error e) ∨
      (E.newProvider w = .ok () ∧ E.newProgram w = .ok () ∧ E.solana w = none)) :
    (createGifAccount E st w).out = .ok () ∧ (createGifAccount E st w).st = st ∧
    (createGifAccount E st w).world = w ∧
    ∀ ev ∈ (createGifAccount E st w).trace, ev.isRemoteCall = false := by
  rcases hp : E.newProvider w with e | ⟨⟩ <;> rcases hg : E.newProgram w with e2 | ⟨⟩ <;>
    rcases hs : E.solana w with _ | wallet <;>
    simp [createGifAccount, tryCatch, bind_def, pure_def, M.bind, M.pure, getProvider,
      newProgram, walletPublicKey, throwErr, log, emit, Event.isRemoteCall, hp, hg, hs] at h ⊢

/-- `createGifAccount` when the `startStuffOff` request is rejected. -/
theorem createGifAccount_startFail (E : Ext W) (st : State) (w w2 : W) (wallet : Wallet)
    (e : Err) (hp : E.newProvider w = .ok ()) (hg : E.newProgram w = .ok ())
    (hs : E.solana w = some wallet)
    (ha : E.startStuffOff E.baseAccount wallet.publicKey E.systemProgramId E.baseAccount w =
      (.error e, w2)) :
    createGifAccount E st w =
      { out := .ok (), st := st, world := w2,
        trace := [.log "ping",
                  .startStuffOff E.baseAccount wallet.publicKey E.systemProgramId E.baseAccount
                    false,
                  .log "Error creating BaseAccount account"] } := by
  simp [createGifAccount, tryCatch, bind_def, pure_def, M.bind, M.pure, getProvider, newProgram,
    walletPublicKey, throwErr, startStuffOff, log, emit, hp, hg, hs, ha]

/-- `createGifAccount` when the `startStuffOff` request succeeds: `getGifList` runs once. -/
theorem createGifAccount_startOk (E : Ext W) (st : State) (w w2 : W) (wallet : Wallet)
    (hp : E.newProvider w = .ok ()) (hg : E.newProgram w = .ok ())
    (hs : E.solana w = some wallet)
    (ha : E.startStuffOff E.baseAccount wallet.publicKey E.systemProgramId E.baseAccount w =
      (.ok (), w2)) :
    createGifAccount E st w =
      { out := .ok (),
        st := (getGifList E st w2).st,
        world := (getGifList E st w2).world,
        trace := [.log "ping",
                  .startStuffOff E.baseAccount wallet.publicKey E.systemProgramId E.baseAccount
                    true,
                  .log "Created a new BaseAccount w/address:"] ++
                 (getGifList E st w2).trace } := by
  have ho := getGifList_out E st w2
  simp [createGifAccount, tryCatch, bind_def, pure_def, M.bind, M.pure, getProvider, newProgram,
    walletPublicKey, throwErr, startStuffOff, log, emit, hp, hg, hs, ha, ho]

/-- Every run of `createGifAccount` has one of three shapes. -/
theorem createGifAccount_cases (E : Ext W) (st : State) (w : W) :
    ((createGifAccount E st w).out = .ok () ∧ (createGifAccount E st w).st = st ∧
      ∀ ev ∈ (createGifAccount E st w).trace, ev.isRemoteCall = false) ∨
    (∃ (wallet : Wallet) (w2 : W), createGifAccount E st w =
      { out := .ok (), st := st, world := w2,
        trace := [.log "ping",
                  .startStuffOff E.baseAccount wallet.publicKey E.systemProgramId E.baseAccount
                    false,
                  .log "Error creating BaseAccount account"] }) ∨
    (∃ (wallet : Wallet) (w2 : W), createGifAccount E st w =
      { out := .ok (),
        st := (getGifList E st w2).st,
        world := (getGifList E st w2).world,
        trace := [.log "ping",
                  .startStuffOff E.baseAccount wallet.publicKey E.systemProgramId E.baseAccount
                    true,
                  .log "Created a new BaseAccount w/address:"] ++
                 (getGifList E st w2).trace }) := by
  rcases hp : E.newProvider w with e | ⟨⟩
  · have h := createGifAccount_noClient E st w (Or.inl ⟨e, hp⟩)
    exact Or.inl ⟨h.1, h.2.1, h.2.2.2⟩
  rcases hg : E.newProgram w with e | ⟨⟩
  · have h := createGifAccount_noClient E st w (Or.inr (Or.inl ⟨e, hg⟩))
    exact Or.inl ⟨h.1, h.2.1, h.2.2.2⟩
  rcases hs : E.solana w with _ | wallet
  · have h := createGifAccount_noClient E st w (Or.inr (Or.inr ⟨hp, hg, hs⟩))
    exact Or.inl ⟨h.1, h.2.1, h.2.2.2⟩
  rcases ha : E.startStuffOff E.baseAccount wallet.publicKey E.systemProgramId E.baseAccount w
    with ⟨(e | ⟨⟩), w2⟩
  · exact Or.inr (Or.inl ⟨wallet, w2, createGifAccount_startFail E st w w2 wallet e hp hg hs ha⟩)
  · exact Or.inr (Or.inr ⟨wallet, w2, createGifAccount_startOk E st w w2 wallet hp hg hs ha⟩)

/-- The shapes of a `checkIfWalletIsConnected` run. -/
theorem checkIfWalletIsConnected_cases (E : Ext W) (st : State) (w : W) :
    (checkIfWalletIsConnected E st w).out = .ok () ∧
    (((checkIfWalletIsConnected E st w).st = st ∧
        ∀ ev ∈ (checkIfWalletIsConnected E st w).trace, ev.isRemoteCall = true →
          ev = .connect true none) ∨
      (∃ k, (checkIfWalletIsConnected E st w).st = { st with walletAddress := some k } ∧
        ∀ ev ∈ (checkIfWalletIsConnected E st w).trace, ev.isFailedCall = false)) := by
  rcases hs : E.solana w with _ | wallet
  · simp [checkIfWalletIsConnected, tryCatch, bind_def, pure_def, M.bind, M.pure, readSolana,
      emit, Event.isRemoteCall, hs]
  · rcases hc : E.connect true w with ⟨(e | k), w2⟩ <;> cases hph : wallet.isPhantom <;>
      simp [checkIfWalletIsConnected, tryCatch, bind_def, pure_def, M.bind, M.pure, readSolana,
        connect, setWalletAddress, log, emit, Event.isRemoteCall, Event.isFailedCall, hs, hc, hph]

/-- A `getGifList` run issues no `addGif` request. -/
theorem getGifList_no_addGif (E : Ext W) (st : State) (w : W) :
    (getGifList E st w).trace.filter Event.isAddGif = [] := by
  rcases getGifList_shape E st w with ⟨a, w2, h⟩ | ⟨w2, pre, rfl | rfl, h⟩ <;>
    simp [h, Event.isAddGif]

/-- The state after `connectWallet` differs from the state before at most in
`walletAddress`. -/
theorem connectWallet_frame (E : Ext W) (st : State) (w : W) :
    (connectWallet E st w).st.gifList = st.gifList ∧
    (connectWallet E st w).st.inputValue = st.inputValue := by
  rcases hs : E.solana w with _ | wallet
  · simp [connectWallet, bind_def, pure_def, M.bind, M.pure, readSolana, hs]
  · rcases hc : E.connect false w with ⟨(e | k), w2⟩ <;>
      simp [connectWallet, bind_def, pure_def, M.bind, M.pure, readSolana, connect,
        setWalletAddress, log, emit, hs, hc]

/-- The grid items are exactly the elements of class `gif-item` among themselves. -/
theorem selectList_gifItems (index : Nat) (items : List GifItem) :
    Node.selectList "gif-item" (renderGifItems index items) = renderGifItems index items := by
  induction items generalizing index with
  | nil => simp [renderGifItems, Node.selectList]
  | cons item rest ih =>
    simp [renderGifItems, Node.selectList, Node.select, Node.className, renderGifItem,
      List.lookup, ih]

/-- The grid items hold no element of a class other than their own two. -/
theorem selectList_gifItems_other (cls : String) (index : Nat) (items : List GifItem)
    (h1 : cls ≠ "gif-item") (h2 : cls ≠ "posted-by-text") :
    Node.selectList cls (renderGifItems index items) = [] := by
  induction items generalizing index with
  | nil => simp [renderGifItems, Node.selectList]
  | cons item rest ih =>
    simp [renderGifItems, Node.selectList, Node.select, Node.className, renderGifItem,
      List.lookup, ih, Ne.symm h1, Ne.symm h2]

/-- The grid has one item per list element. -/
theorem length_renderGifItems (index : Nat) (items : List GifItem) :
    (renderGifItems index items).length = items.length := by
  induction items generalizing index with
  | nil => rfl
  | cons item rest ih => simp [renderGifItems, ih]

/-- The grid item at position `i` renders the list element at position `i`. -/
theorem getElem?_renderGifItems (index i : Nat) (items : List GifItem) :
    (renderGifItems index items)[i]? = (items[i]?).map (renderGifItem (index + i)) := by
  induction items generalizing index i with
  | nil => simp [renderGifItems]
  | cons item rest ih =>
    cases i with
    | zero => simp [renderGifItems]
    | succ j =>
      have hidx : index + 1 + j = index + (j + 1) := by omega
      simp [renderGifItems, ih, hidx]

end Lemmas

/-! ## getGifList -/

section Claims

variable {W : Type}

/-- C1: `getGifList` always completes without throwing; when the account read
fails (provider or Program construction, or the fetch itself) the resulting
`gifList` is `null`, when it succeeds the resulting `gifList` is the `gifList`
field of the fetched account; `walletAddress` and `inputValue` are unchanged. -/
theorem getGifList_total (E : Ext W) (st : State) (w : W) :
    (run E .getGifList st w).completes = true ∧
    (run E .getGifList st w).st.walletAddress = st.walletAddress ∧
    (run E .getGifList st w).st.inputValue = st.inputValue ∧
    ((∃ e, E.newProvider w = .error e) ∨ (∃ e, E.newProgram w = .error e) ∨
        (∃ e w2, E.fetch E.baseAccount w = (.error e, w2)) →
      (run E .getGifList st w).st.gifList = none) ∧
    (∀ a w2, E.newProvider w = .ok () → E.newProgram w = .ok () →
        E.fetch E.baseAccount w = (.ok a, w2) →
      (run E .getGifList st w).st.gifList = some a.gifList) := by
  rcases hp : E.newProvider w with e | ⟨⟩ <;> rcases hg : E.newProgram w with e2 | ⟨⟩ <;>
    rcases hf : E.fetch E.baseAccount w with ⟨(e3 | a), w2⟩ <;>
    simp [run, getGifList, tryCatch, bind_def, M.bind, getProvider, newProgram, fetch, log, emit,
      setGifList, Res.completes, hp, hg, hf]

/-- Witness for C1: a successful read stores the fetched list, a rejected
fetch stores `null`. -/
theorem getGifList_total_witness :
    (run scriptExt .getGifList sampleState okScript).st.gifList = some [sampleItem] ∧
    (run scriptExt .getGifList sampleState fetchFailScript).st.gifList = none :=
  ⟨(getGifList_total scriptExt sampleState okScript).2.2.2.2 { gifList := [sampleItem] }
      okScript rfl rfl rfl,
   (getGifList_total scriptExt sampleState fetchFailScript).2.2.2.1
      (Or.inr (Or.inr ⟨"Account does not exist", fetchFailScript, rfl⟩))⟩

/-! ## sendGif -/

/-- C2: with an empty `inputValue`, `sendGif` completes without throwing,
issues no remote call and leaves the whole state (and the world) unchanged. -/
theorem sendGif_empty_noop (E : Ext W) (st : State) (w : W) (h : st.inputValue = "") :
    (run E .sendGif st w).completes = true ∧
    (run E .sendGif st w).st = st ∧
    (run E .sendGif st w).world = w ∧
    ∀ ev ∈ (run E .sendGif st w).trace, ev.isRemoteCall = false := by
  simp [run, h, sendGif_empty, Res.completes, Event.isRemoteCall]

/-- Witness for C2 on the connected state with an empty form. -/
theorem sendGif_empty_noop_witness :
    emptyInputState.inputValue = "" ∧
    (run scriptExt .sendGif emptyInputState okScript).st = emptyInputState ∧
    ∀ ev ∈ (run scriptExt .sendGif emptyInputState okScript).trace, ev.isRemoteCall = false :=
  ⟨rfl, (sendGif_empty_noop scriptExt emptyInputState okScript rfl).2.1,
    (sendGif_empty_noop scriptExt emptyInputState okScript rfl).2.2.2⟩

/-- C9, as stated, fails: on a call with an empty `inputValue` the trace of
`sendGif` holds no `setInputValue('')`. -/
theorem sendGif_clears_before_check_refuted :
    emptyInputState.inputValue = "" ∧
    Event.setInputValue "" ∉ (run scriptExt .sendGif emptyInputState okScript).trace := by
  decide

/-- C9 (amended): `sendGif` checks that the link is non-empty first.  The
clearing step `setInputValue('')` is performed exactly on the calls with a
non-empty `inputValue`, where it is the first effect, before any remote call;
on a call with an empty `inputValue` the only effect is the log line. -/
theorem sendGif_clears_after_check (E : Ext W) (st : State) (w : W) :
    (Event.setInputValue "" ∈ (run E .sendGif st w).trace ↔ st.inputValue ≠ "") ∧
    (st.inputValue ≠ "" →
      ∃ rest, (run E .sendGif st w).trace = .setInputValue "" :: .log "Gif link:" :: rest) ∧
    (st.inputValue = "" → (run E .sendGif st w).trace = [.log "No gif link given!"]) := by
  by_cases h : st.inputValue = ""
  · simp [run, h, sendGif_empty]
  · have hc := sendGif_cases E st.inputValue st w h
    rcases hc with hc | ⟨wallet, w2, hc⟩ | ⟨wallet, w2, hc⟩ <;> simp [run, h, hc]

/-- Witness for C9 (amended): a non-empty link is cleared first. -/
theorem sendGif_clears_after_check_witness :
    sampleState.inputValue ≠ "" ∧
    ∃ rest, (run scriptExt .sendGif sampleState okScript).trace =
      .setInputValue "" :: .log "Gif link:" :: rest :=
  ⟨by decide, (sendGif_clears_after_check scriptExt sampleState okScript).2.1 (by decide)⟩

/-- C3, as stated, fails: with a non-empty link, when `new Program(...)`
throws inside the `try` block, `sendGif` issues no `addGif` call at all. -/
theorem sendGif_one_addGif_refuted :
    sampleState.inputValue ≠ "" ∧
    (run scriptExt .sendGif sampleState noProgramScript).trace.filter Event.isAddGif = [] := by
  decide

/-- C3 (amended): for a non-empty `inputValue`, once the client is built (the
provider and the Program are constructed and `window.solana` is present),
`sendGif` issues exactly one `addGif` call, carrying that link, the fixed base
account and the public key of the wallet.  If the call succeeds, `sendGif` then
runs `getGifList` exactly once and ends in its state; if the call fails, no
fetch is performed, `sendGif` does not throw and `gifList` is as before. -/
theorem sendGif_protocol (E : Ext W) (st : State) (w : W) (wallet : Wallet)
    (hne : st.inputValue ≠ "") (hp : E.newProvider w = .ok ()) (hg : E.newProgram w = .ok ())
    (hs : E.solana w = some wallet) :
    (∃ ok, (run E .sendGif st w).trace.filter Event.isAddGif =
        [.addGif st.inputValue E.baseAccount wallet.publicKey ok]) ∧
    (∀ w2, E.addGif st.inputValue E.baseAccount wallet.publicKey w = (.ok (), w2) →
      (run E .sendGif st w).completes = true ∧
      (run E .sendGif st w).st = (getGifList E { st with inputValue := "" } w2).st ∧
      (run E .sendGif st w).world = (getGifList E { st with inputValue := "" } w2).world ∧
      (run E .sendGif st w).trace =
        [.setInputValue "", .log "Gif link:",
         .addGif st.inputValue E.baseAccount wallet.publicKey true,
         .log "GIF successfully sent to program"] ++
        (getGifList E { st with inputValue := "" } w2).trace) ∧
    (∀ e w2, E.addGif st.inputValue E.baseAccount wallet.publicKey w = (.error e, w2) →
      (run E .sendGif st w).completes = true ∧
      (run E .sendGif st w).st.gifList = st.gifList ∧
      (run E .sendGif st w).world = w2 ∧
      ∀ ev ∈ (run E .sendGif st w).trace, ev.isFetch = false) := by
  rcases ha : E.addGif st.inputValue E.baseAccount wallet.publicKey w with ⟨(e | ⟨⟩), w2⟩
  · have h := sendGif_addFail E st.inputValue st w w2 wallet e hne hp hg hs ha
    simp [run, h, Res.completes, Event.isAddGif, Event.isFetch]
  · have h := sendGif_addOk E st.inputValue st w w2 wallet hne hp hg hs ha
    have hn := getGifList_no_addGif E { st with inputValue := "" } w2
    simp [run, h, Res.completes, Event.isAddGif, List.filter_cons, hn]

/-- Witness for C3 (amended): a rejected transaction leaves the cached list. -/
theorem sendGif_protocol_witness :
    sampleState.inputValue ≠ "" ∧
    (run scriptExt .sendGif sampleState addFailScript).completes = true ∧
    (run scriptExt .sendGif sampleState addFailScript).st.gifList = sampleState.gifList ∧
    (run scriptExt .sendGif sampleState addFailScript).world = addFailScript ∧
    ∀ ev ∈ (run scriptExt .sendGif sampleState addFailScript).trace, ev.isFetch = false :=
  ⟨by decide,
    (sendGif_protocol scriptExt sampleState addFailScript sampleWallet (by decide) rfl rfl
      rfl).2.2 "transaction failed" addFailScript rfl⟩

/-- C4: on the append-only remote model, with an initialized account and a
connected wallet, `sendGif` of a non-empty link ends with the local `gifList`
equal to the remote list before the call with one item appended; the last
element carries the submitted link and the address of the connected wallet. -/
theorem sendGif_appends (base sys : PublicKey) (st : State) (w : RemoteWorld)
    (items : List GifItem) (wallet : Wallet) (user : PublicKey)
    (hne : st.inputValue ≠ "") (hinit : w.account = some items)
    (hw : w.wallet = some wallet) (hk : wallet.publicKey = some user)
    (hconn : st.walletAddress = some user.toString) :
    (run (remoteExt base sys) .sendGif st w).completes = true ∧
    (run (remoteExt base sys) .sendGif st w).st.gifList =
      some (items ++ [{ gifLink := st.inputValue, userAddress := user }]) ∧
    (run (remoteExt base sys) .sendGif st w).world.account =
      some (items ++ [{ gifLink := st.inputValue, userAddress := user }]) ∧
    ∃ last, ((run (remoteExt base sys) .sendGif st w).st.gifList.bind List.getLast?) = some last ∧
      last.gifLink = st.inputValue ∧ last.userAddress = user ∧
      some last.userAddress.toString = st.walletAddress := by
  have ha : (remoteExt base sys).addGif st.inputValue (remoteExt base sys).baseAccount
      wallet.publicKey w =
      (.ok (),
        { w with
          account := some (items ++ [{ gifLink := st.inputValue, userAddress := user }]) }) := by
    simp [remoteExt, hinit, hk]
  have h := sendGif_addOk (remoteExt base sys) st.inputValue st w _ wallet hne rfl rfl hw ha
  have hf : (remoteExt base sys).fetch (remoteExt base sys).baseAccount
      { w with
        account := some (items ++ [{ gifLink := st.inputValue, userAddress := user }]) } =
      (.ok { gifList := items ++ [{ gifLink := st.inputValue, userAddress := user }] },
        { w with
          account := some (items ++ [{ gifLink := st.inputValue, userAddress := user }]) }) := by
    simp [remoteExt]
  have hgl := getGifList_ok (remoteExt base sys) { st with inputValue := "" } _ _ _ rfl rfl hf
  simp only [run, h, hgl]
  simp [Res.completes, hconn]

/-- Witness for C4 on the sample remote world. -/
theorem sendGif_appends_witness :
    sampleState.inputValue ≠ "" ∧
    (run (remoteExt sampleKey sampleKey) .sendGif sampleState sampleRemote).st.gifList =
      some ([sampleItem] ++ [{ gifLink := sampleState.inputValue, userAddress := sampleKey }]) :=
  ⟨by decide,
    (sendGif_appends sampleKey sampleKey sampleState sampleRemote [sampleItem] sampleWallet
      sampleKey (by decide) rfl rfl rfl rfl).2.1⟩

/-- C10: for a non-empty link, when the `addGif` transaction succeeds and the
account read that follows fails, `sendGif` completes without throwing with
`gifList` equal to `null`, `inputValue` empty and `walletAddress` unchanged. -/
theorem sendGif_refetch_fails (E : Ext W) (st : State) (w w2 : W) (wallet : Wallet)
    (hne : st.inputValue ≠ "") (hp : E.newProvider w = .ok ()) (hg : E.newProgram w = .ok ())
    (hs : E.solana w = some wallet)
    (ha : E.addGif st.inputValue E.baseAccount wallet.publicKey w = (.ok (), w2))
    (hf : (∃ e, E.newProvider w2 = .error e) ∨ (∃ e, E.newProgram w2 = .error e) ∨
      (∃ e w3, E.fetch E.baseAccount w2 = (.error e, w3))) :
    (run E .sendGif st w).completes = true ∧
    (run E .sendGif st w).st.gifList = none ∧
    (run E .sendGif st w).st.inputValue = "" ∧
    (run E .sendGif st w).st.walletAddress = st.walletAddress := by
  have h := sendGif_addOk E st.inputValue st w w2 wallet hne hp hg hs ha
  have hgl := (getGifList_fail E { st with inputValue := "" } w2 hf).2
  simp [run, h, hgl, Res.completes]

/-- Witness for C10: the transaction succeeds and the read is rejected. -/
theorem sendGif_refetch_fails_witness :
    sampleState.inputValue ≠ "" ∧
    (run scriptExt .sendGif sampleState fetchFailScript).completes = true ∧
    (run scriptExt .sendGif sampleState fetchFailScript).st.gifList = none ∧
    (run scriptExt .sendGif sampleState fetchFailScript).st.inputValue = "" ∧
    (run scriptExt .sendGif sampleState fetchFailScript).st.walletAddress =
      sampleState.walletAddress :=
  ⟨by decide,
    sendGif_refetch_fails scriptExt sampleState fetchFailScript fetchFailScript sampleWallet
      (by decide) rfl rfl rfl rfl
      (Or.inr (Or.inr ⟨"Account does not exist", fetchFailScript, rfl⟩))⟩

/-! ## Wallet connection -/

/-- C5: when `window.solana` is absent, `checkIfWalletIsConnected` and
`connectWallet` both complete without throwing, issue no connect request and
leave `walletAddress` unchanged, so that it is still `null` from the initial
state. -/
theorem no_provider_no_connect (E : Ext W) (st : State) (w : W) (h : E.solana w = none) :
    ((run E .checkIfWalletIsConnected st w).completes = true ∧
      (∀ ev ∈ (run E .checkIfWalletIsConnected st w).trace, ev.isConnect = false) ∧
      (run E .checkIfWalletIsConnected st w).st.walletAddress = st.walletAddress) ∧
    ((run E .connectWallet st w).completes = true ∧
      (∀ ev ∈ (run E .connectWallet st w).trace, ev.isConnect = false) ∧
      (run E .connectWallet st w).st.walletAddress = st.walletAddress) ∧
    (run E .checkIfWalletIsConnected State.initial w).st.walletAddress = none ∧
    (run E .connectWallet State.initial w).st.walletAddress = none := by
  simp [run, checkIfWalletIsConnected, connectWallet, tryCatch, bind_def, pure_def, M.bind,
    M.pure, readSolana, emit, Res.completes, Event.isConnect, State.initial, h]

/-- Witness for C5 on a page without a wallet extension. -/
theorem no_provider_no_connect_witness :
    scriptExt.solana noWalletScript = none ∧
    (run scriptExt .checkIfWalletIsConnected State.initial noWalletScript).st.walletAddress =
      none ∧
    (run scriptExt .connectWallet State.initial noWalletScript).st.walletAddress = none :=
  ⟨rfl, (no_provider_no_connect scriptExt State.initial noWalletScript rfl).2.2⟩

/-! ## Failures and the cached list -/

/-- C6, as stated, fails twice: `connectWallet` has no handler around the
connect request, so a rejected request rejects its promise; and `sendGif`
with a rejected `addGif` ends in a state that is neither the state before
(the input was cleared) nor one with `gifList` equal to `null`. -/
theorem failures_caught_refuted :
    (run scriptExt .connectWallet sampleState rejectScript).completes = false ∧
    (∃ ev ∈ (run scriptExt .sendGif sampleState addFailScript).trace, ev.isFailedCall = true) ∧
    (run scriptExt .sendGif sampleState addFailScript).st ≠ sampleState ∧
    (run scriptExt .sendGif sampleState addFailScript).st.gifList ≠ none := by
  decide

/-- C6 (amended): every operation other than `connectWallet` completes
normally whatever its external calls do; and when one of its remote calls
(connect request, transaction, account fetch) was rejected, `walletAddress` is
unchanged, `gifList` is unchanged or `null`, and `inputValue` is unchanged,
except that `sendGif` has already cleared it. -/
theorem failures_caught (E : Ext W) (op : Op) (st : State) (w : W)
    (hop : op ≠ .connectWallet) :
    (run E op st w).completes = true ∧
    ((∃ ev ∈ (run E op st w).trace, ev.isFailedCall = true) →
      (run E op st w).st.walletAddress = st.walletAddress ∧
      ((run E op st w).st.gifList = st.gifList ∨ (run E op st w).st.gifList = none) ∧
      ((run E op st w).st.inputValue = st.inputValue ∨
        (op = .sendGif ∧ (run E op st w).st.inputValue = ""))) := by
  cases op with
  | connectWallet => exact absurd rfl hop
  | checkIfWalletIsConnected =>
    obtain ⟨ho, hc⟩ := checkIfWalletIsConnected_cases E st w
    refine ⟨by simp [run, Res.completes, ho], ?_⟩
    rintro ⟨ev, hev, hfail⟩
    rcases hc with ⟨hst, _⟩ | ⟨k, _, hno⟩
    · simp [run, hst]
    · have := hno ev hev
      simp [hfail] at this
  | onInputChange value =>
    simp [run, onInputChange, setInputValue, Res.completes, Event.isFailedCall]
  | getGifList =>
    rcases getGifList_shape E st w with ⟨a, w2, h⟩ | ⟨w2, pre, rfl | rfl, h⟩ <;>
      simp [run, h, Res.completes, Event.isFailedCall]
  | createGifAccount =>
    rcases createGifAccount_cases E st w with ⟨ho, hst, hno⟩ | ⟨wallet, w2, h⟩ | ⟨wallet, w2, h⟩
    · simp [run, Res.completes, ho, hst]
    · simp [run, h, Res.completes]
    · rcases getGifList_shape E st w2 with ⟨a, w3, hg⟩ | ⟨w3, pre, rfl | rfl, hg⟩ <;>
        simp [run, h, hg, Res.completes, Event.isFailedCall]
  | sendGif =>
    by_cases hl : st.inputValue = ""
    · simp [run, hl, sendGif_empty, Res.completes, Event.isFailedCall]
    · rcases sendGif_cases E st.inputValue st w hl with h | ⟨wallet, w2, h⟩ | ⟨wallet, w2, h⟩
      · simp [run, h, Res.completes]
      · simp [run, h, Res.completes]
      · rcases getGifList_shape E { st with inputValue := "" } w2 with
          ⟨a, w3, hg⟩ | ⟨w3, pre, rfl | rfl, hg⟩ <;>
          simp [run, h, hg, Res.completes, Event.isFailedCall]

/-- Witness for C6 (amended): a rejected trusted connect request is caught. -/
theorem failures_caught_witness :
    Op.checkIfWalletIsConnected ≠ Op.connectWallet ∧
    (run scriptExt .checkIfWalletIsConnected sampleState rejectScript).completes = true ∧
    ((∃ ev ∈ (run scriptExt .checkIfWalletIsConnected sampleState rejectScript).trace,
        ev.isFailedCall = true) ∧
      (run scriptExt .checkIfWalletIsConnected sampleState rejectScript).st.walletAddress =
        sampleState.walletAddress) :=
  ⟨by decide,
    (failures_caught scriptExt .checkIfWalletIsConnected sampleState rejectScript
      (by decide)).1,
    by decide,
    ((failures_caught scriptExt .checkIfWalletIsConnected sampleState rejectScript
      (by decide)).2 (by decide)).1⟩

/-- C7: after any operation and any outcome of its external calls, the local
`gifList` is unchanged, or `null`, or exactly the list returned by an account
fetch performed during that operation; `sendGif` in particular never stores a
list computed locally. -/
theorem gifList_snapshot (E : Ext W) (op : Op) (st : State) (w : W) :
    (run E op st w).st.gifList = st.gifList ∨
    (run E op st w).st.gifList = none ∨
    ∃ a, Event.fetch E.baseAccount (some a) ∈ (run E op st w).trace ∧
      (run E op st w).st.gifList = some a.gifList := by
  cases op with
  | connectWallet => exact Or.inl (connectWallet_frame E st w).1
  | checkIfWalletIsConnected =>
    obtain ⟨_, hc⟩ := checkIfWalletIsConnected_cases E st w
    rcases hc with ⟨hst, _⟩ | ⟨k, hst, _⟩ <;> simp [run, hst]
  | onInputChange value => simp [run, onInputChange, setInputValue]
  | getGifList =>
    rcases getGifList_shape E st w with ⟨a, w2, h⟩ | ⟨w2, pre, rfl | rfl, h⟩ <;> simp [run, h]
  | createGifAccount =>
    rcases createGifAccount_cases E st w with ⟨ho, hst, hno⟩ | ⟨wallet, w2, h⟩ | ⟨wallet, w2, h⟩
    · simp [run, hst]
    · simp [run, h]
    · rcases getGifList_shape E st w2 with ⟨a, w3, hg⟩ | ⟨w3, pre, rfl | rfl, hg⟩ <;>
        simp [run, h, hg]
  | sendGif =>
    by_cases hl : st.inputValue = ""
    · simp [run, hl, sendGif_empty]
    · rcases sendGif_cases E st.inputValue st w hl with h | ⟨wallet, w2, h⟩ | ⟨wallet, w2, h⟩
      · simp [run, h]
      · simp [run, h]
      · rcases getGifList_shape E { st with inputValue := "" } w2 with
          ⟨a, w3, hg⟩ | ⟨w3, pre, rfl | rfl, hg⟩ <;>
          simp [run, h, hg]

/-! ## The view -/

/-- C8: the rendered tree is `render st`, a function of the three state cells.
With `walletAddress` absent (`null` or empty) the landing image and the
connect button are rendered and no connected container is.  With
`walletAddress` present and `gifList` equal to `null`, the connected container
holds the initialization button only.  With `walletAddress` present and
`gifList` a list, the connected container holds the submit form, whose input
shows `inputValue`, and the grid; the grid holds exactly one `gif-item` per list
element, in list order, with the image source equal to the `gifLink` of the
element and the text equal to its `userAddress`. -/
theorem render_branches (st : State) :
    (st.walletAddress = none ∨ st.walletAddress = some "" →
      Node.select "landing-image-container" (render st) = [renderImage] ∧
      Node.select "landing-image" (render st) =
        [.elem "img"
          [("className", .str "landing-image"),
           ("src", .str "https://media.giphy.com/media/d6Ni9aqSatPfq/giphy.gif")] []] ∧
      Node.select "cta-button connect-wallet-button" (render st) =
        [.elem "button"
          [("className", .str "cta-button connect-wallet-button"),
           ("onClick", .handler .connectWallet)]
          [.text "Connect to Wallet"]] ∧
      Node.select "connected-container" (render st) = []) ∧
    (∀ a, st.walletAddress = some a → a ≠ "" → st.gifList = none →
      Node.select "connected-container" (render st) =
        [.elem "div" [("className", .str "connected-container")]
          [.elem "button"
            [("className", .str "cta-button submit-gif-button"),
             ("onClick", .handler .createGifAccount)]
            [.text "Do a One-Time Initialization For GIF Program Account"]]]) ∧
    (∀ a items, st.walletAddress = some a → a ≠ "" → st.gifList = some items →
      Node.select "connected-container" (render st) =
        [.elem "div" [("className", .str "connected-container")]
          [.elem "form" [("onSubmit", .handler .submitSendGif)]
            [.elem "input"
              [("type", .str "text"),
               ("placeholder", .str "Enter the link of your favorite HP GIF!"),
               ("value", .str st.inputValue),
               ("onChange", .handler .onInputChange)] [],
             .elem "button"
              [("type", .str "submit"), ("className", .str "cta-button submit-gif-button")]
              [.text "Submit"]],
           .elem "div" [("className", .str "gif-grid")] (renderGifItems 0 items)]] ∧
      Node.select "gif-item" (render st) = renderGifItems 0 items ∧
      (renderGifItems 0 items).length = items.length ∧
      ∀ i item, items[i]? = some item →
        (renderGifItems 0 items)[i]? =
          some (Node.elem "div" [("className", .str "gif-item"), ("key", .num i)]
            [.elem "img" [("src", .str item.gifLink)] [],
             .elem "p" [("className", .str "posted-by-text")]
               [.text "Posted by: ", .text item.userAddress.toString]])) := by
  refine ⟨?_, ?_, ?_⟩
  · rintro (h | h) <;>
      simp [render, renderImage, renderNotConnectedContainer, truthy, h, Node.select,
        Node.selectList, Node.className, List.lookup]
  · intro a ha hne hg
    have hl : ¬ a.length = 0 := fun h0 => hne ((length_eq_zero_iff a).mp h0)
    simp [render, renderConnectedContainer, truthy, ha, hl, hg, Node.select, Node.selectList,
      Node.className, List.lookup]
  · intro a items ha hne hg
    have hl : ¬ a.length = 0 := fun h0 => hne ((length_eq_zero_iff a).mp h0)
    refine ⟨?_, ?_, length_renderGifItems 0 items, ?_⟩
    · simp [render, renderConnectedContainer, truthy, ha, hl, hg, Node.select, Node.selectList,
        Node.className, List.lookup, selectList_gifItems_other]
    · simp [render, renderConnectedContainer, truthy, ha, hl, hg, Node.select, Node.selectList,
        Node.className, List.lookup, selectList_gifItems]
    · intro i item hi
      simp [getElem?_renderGifItems, hi, renderGifItem]

/-- Witness for C8: the connected sample state renders one item for its one
list element, and the initial state renders no connected container. -/
theorem render_branches_witness :
    (sampleState.walletAddress = some sampleKey.toString ∧ sampleKey.toString ≠ "" ∧
      sampleState.gifList = some [sampleItem]) ∧
    Node.select "gif-item" (render sampleState) = renderGifItems 0 [sampleItem] ∧
    Node.select "connected-container" (render State.initial) = [] :=
  ⟨⟨rfl, by decide, rfl⟩,
    ((render_branches sampleState).2.2 sampleKey.toString [sampleItem] rfl (by decide) rfl).2.1,
    ((render_branches State.initial).1 (Or.inl rfl)).2.2.2⟩

end Claims

end App
